import Mathlib

/-!
Verification of `check_cm_service.py`, a Nagios-style health-check plugin
for Cloudera Manager. The script fetches one service's health summary and
its list of individual health checks, reduces them to a one-line status
string plus a Nagios exit code, prints the string and exits with the code.

The embedding below mirrors the source file shallowly:
* dictionary lookups (`NAGIOS_CODE_MESSAGES[...]`, `CM_STATE_CODES[...]`)
  become `Option`-valued functions, a `none` standing for the `KeyError`
  the Python interpreter would raise;
* the service record fetched from the server becomes a `Service` structure;
* the reduction of lines 153-169 becomes `evalService`;
* Python integer truthiness (`not args.port`, `args.api_version and ...`)
  is modelled explicitly: an `Option Int` (or `Int`) is falsy when it is
  `none` (respectively `0`);
* the module guard `print main()[0]; sys.exit(main()[1])` becomes
  `scriptMain`, which invokes the fetch-and-reduce body once per call of
  `main()`; the fetch oracle is indexed by invocation number so repeated
  calls can observe changed server state.
-/

namespace CheckCmService

/-- `DEFAULT_HTTP_PORT = 7180`. -/
def DEFAULT_HTTP_PORT : Int := 7180

/-- `DEFAULT_HTTPS_PORT = 7183`. -/
def DEFAULT_HTTPS_PORT : Int := 7183

/-- `MINIMUM_SUPPORTED_API_VERSION = 12`. -/
def MINIMUM_SUPPORTED_API_VERSION : Int := 12

/-- `EXIT_OK = 0`. -/
def EXIT_OK : Nat := 0

/-- `EXIT_WARNING = 1`. -/
def EXIT_WARNING : Nat := 1

/-- `EXIT_CRITICAL = 2`. -/
def EXIT_CRITICAL : Nat := 2

/-- `EXIT_UNKNOWN = 3`. -/
def EXIT_UNKNOWN : Nat := 3

/-- The dictionary `NAGIOS_CODE_MESSAGES` (lines 55-58): exit code to
severity label. `none` models a `KeyError`. -/
def NAGIOS_CODE_MESSAGES (code : Nat) : Option String :=
  if code = EXIT_OK then some "OK"
  else if code = EXIT_WARNING then some "WARNING"
  else if code = EXIT_CRITICAL then some "CRITICAL"
  else if code = EXIT_UNKNOWN then some "UNKNOWN"
  else none

/-- The dictionary `CM_STATE_CODES` (lines 60-65): health summary to exit
code. `none` models a `KeyError`. -/
def CM_STATE_CODES (summary : String) : Option Nat :=
  if summary = "HISTORY_NOT_AVAILABLE" then some EXIT_UNKNOWN
  else if summary = "NOT_AVAILABLE" then some EXIT_UNKNOWN
  else if summary = "DISABLED" then some EXIT_UNKNOWN
  else if summary = "GOOD" then some EXIT_OK
  else if summary = "CONCERNING" then some EXIT_WARNING
  else if summary = "BAD" then some EXIT_CRITICAL
  else none

/-- One entry of `s.healthChecks`: a dict with keys `name` and `summary`. -/
structure HealthCheck where
  name : String
  summary : String
deriving DecidableEq

/-- The service record fetched from the server: `s.name`,
`s.healthSummary` and `s.healthChecks` are the only fields the script
reads. -/
structure Service where
  name : String
  healthSummary : String
  healthChecks : List HealthCheck
deriving DecidableEq

/-- The format expression `"%s: %s is %s" % (msg, name, summary)`
(lines 157 and 160). -/
def fmtStatus (msg name summary : String) : String :=
  msg ++ ": " ++ name ++ " is " ++ summary

/-- The `for chk in check:` loop of lines 165-167: append
`"%s (%s) " % (chk['name'], chk['summary'])` for every check whose summary
is neither `"GOOD"` nor `"DISABLED"`, in list order. -/
def appendFailingChecks (status : String) : List HealthCheck → String
  | [] => status
  | chk :: rest =>
    if chk.summary ≠ "GOOD" ∧ chk.summary ≠ "DISABLED" then
      appendFailingChecks (status ++ chk.name ++ " (" ++ chk.summary ++ ") ") rest
    else
      appendFailingChecks status rest

/-- The reduction of lines 153-169: from the fetched service record to the
`(status, code)` pair `main` returns. `none` models an uncaught `KeyError`
from one of the dictionary lookups. -/
def evalService (s : Service) : Option (String × Nat) :=
  let summary := s.healthSummary
  let check := s.healthChecks
  let base :=
    if s.healthSummary = "CONCERNING" then
      match CM_STATE_CODES "GOOD" with
      | none => none
      | some c =>
        match NAGIOS_CODE_MESSAGES c with
        | none => none
        | some m => some (fmtStatus m s.name summary, c)
    else
      match CM_STATE_CODES summary with
      | none => none
      | some c =>
        match NAGIOS_CODE_MESSAGES c with
        | none => none
        | some m => some (fmtStatus m s.name summary, c)
  match base with
  | none => none
  | some (status, code) =>
    if s.healthSummary ≠ "GOOD" ∧ s.healthSummary ≠ "DISABLED" then
      some (appendFailingChecks (status ++ " - ") check, code)
    else
      some (status, code)

/-- Python truthiness of the optional integer `args.port`: `not args.port`
is true when the port is absent or equal to `0`. -/
def pyFalsy : Option Int → Bool
  | none => true
  | some n => n = 0

/-- The port defaulting of lines 137-141: `if not args.port:` assign
`DEFAULT_HTTPS_PORT` when `args.use_tls` else `DEFAULT_HTTP_PORT`. -/
def resolvePort (port : Option Int) (use_tls : Bool) : Int :=
  if pyFalsy port then
    if use_tls then DEFAULT_HTTPS_PORT else DEFAULT_HTTP_PORT
  else
    port.getD 0

/-- `validate_api_compatibility` (lines 80-87): when
`args.api_version and args.api_version < MINIMUM_SUPPORTED_API_VERSION`
print the advisory; the function never aborts, so its whole observable
effect is the optional printed message. Python truthiness makes the guard
false when the version is `0`. -/
def validate_api_compatibility (api_version : Int) : Option String :=
  if api_version ≠ 0 ∧ api_version < MINIMUM_SUPPORTED_API_VERSION then
    some ("ERROR: Given API version: " ++ toString api_version ++
      ". Minimum supported API version: " ++ toString MINIMUM_SUPPORTED_API_VERSION)
  else
    none

/-- The arguments `main` reads after `argparse` (hostname, username and
password play no role in the health evaluation and are omitted). -/
structure Args where
  port : Option Int
  api_version : Int
  use_tls : Bool
  cluster : String
  service : String

/-- The body of `main()` after argument parsing: port defaulting
(lines 137-141), API validation (line 143), fetch (lines 150-151) and the
reduction (lines 153-169). `fetch i cluster service` abstracts
`api.get_cluster(cluster).get_service(service)` on the i-th invocation of
`main` within the process, so repeated invocations can observe changed
server state. Returns the resolved port, the optional advisory message,
and the `(status, code)` result. -/
def mainBody (fetch : Nat → String → String → Service) (i : Nat) (a : Args) :
    Int × Option String × Option (String × Nat) :=
  let port := resolvePort a.port a.use_tls
  let warn := validate_api_compatibility a.api_version
  let s := fetch i a.cluster a.service
  (port, warn, evalService s)

/-- The module guard (lines 173-175): `print main()[0]` runs `main` a
first time and prints the status; `sys.exit(main()[1])` runs `main` a
second time and exits with that call's code. Returns the list of printed
lines, the exit outcome (`none` = uncaught exception) and the number of
invocations of `main`. -/
def scriptMain (fetch : Nat → String → String → Service) (a : Args) :
    List String × Option Nat × Nat :=
  match (mainBody fetch 0 a).2.2 with
  | none => ([], none, 1)
  | some r0 =>
    match (mainBody fetch 1 a).2.2 with
    | none => ([r0.1], none, 2)
    | some r1 => ([r0.1], some r1.2, 2)

/-- The checks rendered by the loop, standalone: the non-GOOD,
non-DISABLED entries in list order, each as `"name (summary) "`. -/
def renderedChecks : List HealthCheck → String
  | [] => ""
  | chk :: rest =>
    if chk.summary ≠ "GOOD" ∧ chk.summary ≠ "DISABLED" then
      (chk.name ++ " (" ++ chk.summary ++ ") ") ++ renderedChecks rest
    else
      renderedChecks rest

theorem appendFailingChecks_eq (status : String) (l : List HealthCheck) :
    appendFailingChecks status l = status ++ renderedChecks l := by
  induction l generalizing status with
  | nil => simp [appendFailingChecks, renderedChecks, String.append_empty]
  | cons chk rest ih =>
    simp only [appendFailingChecks, renderedChecks]
    split
    · rw [ih]; simp [String.append_assoc]
    · exact ih status

theorem renderedChecks_all_healthy (l : List HealthCheck)
    (h : ∀ chk ∈ l, chk.summary = "GOOD" ∨ chk.summary = "DISABLED") :
    renderedChecks l = "" := by
  induction l with
  | nil => rfl
  | cons chk rest ih =>
    have hc := h chk (List.mem_cons_self chk rest)
    have hr := ih fun c hm => h c (List.mem_cons_of_mem chk hm)
    simp only [renderedChecks]
    rcases hc with hg | hd
    · simp [hg, hr]
    · simp [hd, hr]

theorem eval_concerning (n : String) (cks : List HealthCheck) :
    evalService ⟨n, "CONCERNING", cks⟩ =
      some (fmtStatus "OK" n "CONCERNING" ++ " - " ++ renderedChecks cks, EXIT_OK) := by
  simp [evalService, CM_STATE_CODES, NAGIOS_CODE_MESSAGES, EXIT_OK, EXIT_WARNING,
    EXIT_CRITICAL, EXIT_UNKNOWN, appendFailingChecks_eq, String.append_assoc]

theorem eval_good (n : String) (cks : List HealthCheck) :
    evalService ⟨n, "GOOD", cks⟩ = some (fmtStatus "OK" n "GOOD", EXIT_OK) := by
  simp [evalService, CM_STATE_CODES, NAGIOS_CODE_MESSAGES, EXIT_OK, EXIT_WARNING,
    EXIT_CRITICAL, EXIT_UNKNOWN]

theorem eval_disabled (n : String) (cks : List HealthCheck) :
    evalService ⟨n, "DISABLED", cks⟩ =
      some (fmtStatus "UNKNOWN" n "DISABLED", EXIT_UNKNOWN) := by
  simp [evalService, CM_STATE_CODES, NAGIOS_CODE_MESSAGES, EXIT_OK, EXIT_WARNING,
    EXIT_CRITICAL, EXIT_UNKNOWN]

theorem eval_bad (n : String) (cks : List HealthCheck) :
    evalService ⟨n, "BAD", cks⟩ =
      some (fmtStatus "CRITICAL" n "BAD" ++ " - " ++ renderedChecks cks, EXIT_CRITICAL) := by
  simp [evalService, CM_STATE_CODES, NAGIOS_CODE_MESSAGES, EXIT_OK, EXIT_WARNING,
    EXIT_CRITICAL, EXIT_UNKNOWN, appendFailingChecks_eq, String.append_assoc]

theorem eval_history_not_available (n : String) (cks : List HealthCheck) :
    evalService ⟨n, "HISTORY_NOT_AVAILABLE", cks⟩ =
      some (fmtStatus "UNKNOWN" n "HISTORY_NOT_AVAILABLE" ++ " - " ++ renderedChecks cks,
        EXIT_UNKNOWN) := by
  simp [evalService, CM_STATE_CODES, NAGIOS_CODE_MESSAGES, EXIT_OK, EXIT_WARNING,
    EXIT_CRITICAL, EXIT_UNKNOWN, appendFailingChecks_eq, String.append_assoc]

theorem eval_not_available (n : String) (cks : List HealthCheck) :
    evalService ⟨n, "NOT_AVAILABLE", cks⟩ =
      some (fmtStatus "UNKNOWN" n "NOT_AVAILABLE" ++ " - " ++ renderedChecks cks,
        EXIT_UNKNOWN) := by
  simp [evalService, CM_STATE_CODES, NAGIOS_CODE_MESSAGES, EXIT_OK, EXIT_WARNING,
    EXIT_CRITICAL, EXIT_UNKNOWN, appendFailingChecks_eq, String.append_assoc]

theorem nagios_of_cm (s : String) (c : Nat) (h : CM_STATE_CODES s = some c) :
    ∃ m, NAGIOS_CODE_MESSAGES c = some m := by
  simp only [CM_STATE_CODES] at h
  repeat' split at h
  all_goals (try cases h)
  all_goals simp [NAGIOS_CODE_MESSAGES, EXIT_OK, EXIT_WARNING, EXIT_CRITICAL, EXIT_UNKNOWN]

theorem eval_shape_other (n summary : String) (cks : List HealthCheck) (code : Nat)
    (m : String) (hc : summary ≠ "CONCERNING") (h1 : summary ≠ "GOOD")
    (h2 : summary ≠ "DISABLED") (hcm : CM_STATE_CODES summary = some code)
    (hm : NAGIOS_CODE_MESSAGES code = some m) :
    evalService ⟨n, summary, cks⟩ =
      some (fmtStatus m n summary ++ " - " ++ renderedChecks cks, code) := by
  simp [evalService, hc, h1, h2, hcm, hm, appendFailingChecks_eq, String.append_assoc]

/-- C1: for every run where the fetched service's `healthSummary` is
`"CONCERNING"`, the produced exit code is `EXIT_OK = 0` and the status
string begins with the `"OK"` severity label — the label and code the
tables associate with `"GOOD"` — even though the mapping table itself
assigns `CONCERNING` the code `EXIT_WARNING`. -/
theorem c1_concerning_reported_ok (n : String) (cks : List HealthCheck) :
    evalService ⟨n, "CONCERNING", cks⟩ =
      some (fmtStatus "OK" n "CONCERNING" ++ " - " ++ renderedChecks cks, EXIT_OK)
    ∧ CM_STATE_CODES "GOOD" = some EXIT_OK
    ∧ NAGIOS_CODE_MESSAGES EXIT_OK = some "OK"
    ∧ CM_STATE_CODES "CONCERNING" = some EXIT_WARNING
    ∧ EXIT_OK = 0 :=
  ⟨eval_concerning n cks, rfl, rfl, rfl, rfl⟩

/-- C2 (demonstration of the code bug): the module guard evaluates
`main()` twice — once for the printed line, once for the exit code — so a
server whose state changes between the two back-to-back fetches makes the
process print the `OK` line yet exit with the `CRITICAL` code, and the
invocation counter is `2`, not `1`. -/
theorem c2_main_invoked_twice :
    scriptMain
      (fun i _ _ => if i = 0 then ⟨"svc", "GOOD", []⟩ else ⟨"svc", "BAD", []⟩)
      ⟨none, 12, false, "cl", "svc"⟩ =
      (["OK: svc is GOOD"], some EXIT_CRITICAL, 2) := by
  decide

/-- C3: for the five known `healthSummary` values other than
`CONCERNING`, the produced exit code is the mapping-table value:
`HISTORY_NOT_AVAILABLE`, `NOT_AVAILABLE`, `DISABLED` give 3, `GOOD` gives
0 and `BAD` gives 2, for every service name and check list. -/
theorem c3_state_code_mapping (n : String) (cks : List HealthCheck) :
    (evalService ⟨n, "HISTORY_NOT_AVAILABLE", cks⟩).map Prod.snd = some 3
    ∧ (evalService ⟨n, "NOT_AVAILABLE", cks⟩).map Prod.snd = some 3
    ∧ (evalService ⟨n, "DISABLED", cks⟩).map Prod.snd = some 3
    ∧ (evalService ⟨n, "GOOD", cks⟩).map Prod.snd = some 0
    ∧ (evalService ⟨n, "BAD", cks⟩).map Prod.snd = some 2 := by
  refine ⟨?_, ?_, ?_, ?_, ?_⟩
  · rw [eval_history_not_available]; rfl
  · rw [eval_not_available]; rfl
  · rw [eval_disabled]; rfl
  · rw [eval_good]; rfl
  · rw [eval_bad]; rfl

/-- C4 counterexample: for a service in state `CONCERNING` with an empty
check list, the produced status is `"OK: svc is CONCERNING - "`, which
carries the `" - "` suffix and is not the claimed `"OK: svc is
CONCERNING"`. -/
theorem c4_concerning_counterexample :
    (evalService ⟨"svc", "CONCERNING", []⟩).map Prod.fst =
      some "OK: svc is CONCERNING - "
    ∧ "OK: svc is CONCERNING - " ≠ "OK: svc is CONCERNING" := by
  decide

/-- C4 amended: for every run where the service's `healthSummary` is
`"CONCERNING"`, the status is `"OK: <name> is CONCERNING - "` followed by
the rendered non-GOOD/non-DISABLED checks (a dangling `" - "` when there
are none), and the exit code is `EXIT_OK = 0`. -/
theorem c4_concerning_status_amended (n : String) (cks : List HealthCheck) :
    evalService ⟨n, "CONCERNING", cks⟩ =
      some (fmtStatus "OK" n "CONCERNING" ++ " - " ++ renderedChecks cks, 0) :=
  eval_concerning n cks

/-- C5: for every run whose `healthSummary` is one of the known
non-`GOOD`/non-`DISABLED` values, the status string is the base message
followed by `" - "` and then exactly the non-GOOD/non-DISABLED checks in
server order, each rendered `"name (summary) "`; in particular the `hdfs`
end-to-end example produces `"CRITICAL: hdfs is BAD - DATANODES_HEALTHY
(BAD) "` with exit code 2. -/
theorem c5_failing_checks_listed (n : String) (cks : List HealthCheck) :
    evalService ⟨n, "BAD", cks⟩ =
      some (fmtStatus "CRITICAL" n "BAD" ++ " - " ++ renderedChecks cks, EXIT_CRITICAL)
    ∧ evalService ⟨n, "CONCERNING", cks⟩ =
      some (fmtStatus "OK" n "CONCERNING" ++ " - " ++ renderedChecks cks, EXIT_OK)
    ∧ evalService ⟨n, "HISTORY_NOT_AVAILABLE", cks⟩ =
      some (fmtStatus "UNKNOWN" n "HISTORY_NOT_AVAILABLE" ++ " - " ++ renderedChecks cks,
        EXIT_UNKNOWN)
    ∧ evalService ⟨n, "NOT_AVAILABLE", cks⟩ =
      some (fmtStatus "UNKNOWN" n "NOT_AVAILABLE" ++ " - " ++ renderedChecks cks,
        EXIT_UNKNOWN)
    ∧ evalService ⟨"hdfs", "BAD",
        [⟨"DATANODES_HEALTHY", "BAD"⟩, ⟨"NAMENODE_UPTIME", "GOOD"⟩]⟩ =
      some ("CRITICAL: hdfs is BAD - DATANODES_HEALTHY (BAD) ", 2) :=
  ⟨eval_bad n cks, eval_concerning n cks, eval_history_not_available n cks,
    eval_not_available n cks, by decide⟩

/-- C6: for every run where the service's `healthSummary` is `"GOOD"` or
`"DISABLED"`, the status string is exactly the base message — no `" - "`
suffix is appended and no individual check is rendered — whatever the
check list contains. -/
theorem c6_good_disabled_no_suffix (n : String) (cks : List HealthCheck) :
    evalService ⟨n, "GOOD", cks⟩ = some (fmtStatus "OK" n "GOOD", EXIT_OK)
    ∧ evalService ⟨n, "DISABLED", cks⟩ =
      some (fmtStatus "UNKNOWN" n "DISABLED", EXIT_UNKNOWN) :=
  ⟨eval_good n cks, eval_disabled n cks⟩

/-- C7 counterexample: an explicitly supplied port of `0` is not used
unchanged — Python's `not args.port` treats it as unset, so it is
replaced by the TLS-dependent default. -/
theorem c7_port_zero_counterexample :
    resolvePort (some 0) false = 7180
    ∧ resolvePort (some 0) true = 7183
    ∧ resolvePort (some 0) false ≠ 0 := by
  decide

/-- C7 amended: an unset port resolves to 7183 when TLS is set and 7180
otherwise; an explicit nonzero port is used unchanged regardless of TLS;
an explicit port of `0` is treated as unset and replaced by the
TLS-dependent default. -/
theorem c7_port_resolution_amended (p : Int) (tls : Bool) (hp : p ≠ 0) :
    resolvePort none tls = (if tls then 7183 else 7180)
    ∧ resolvePort (some p) tls = p
    ∧ resolvePort (some 0) tls = (if tls then 7183 else 7180) := by
  refine ⟨?_, ?_, ?_⟩ <;>
    simp [resolvePort, pyFalsy, hp, DEFAULT_HTTP_PORT, DEFAULT_HTTPS_PORT]

/-- C7 witness: instantiates the amended port-resolution theorem at the
explicit nonzero port 9999 with TLS set. -/
theorem c7_port_resolution_witness :
    resolvePort none true = (if true then 7183 else 7180)
    ∧ resolvePort (some 9999) true = 9999
    ∧ resolvePort (some 0) true = (if true then 7183 else 7180) :=
  c7_port_resolution_amended 9999 true (by decide)

/-- C8 counterexample: API version 0 is strictly below the minimum
supported version 12, yet no advisory message is emitted, because
Python's `args.api_version and ...` guard is false on the falsy value 0. -/
theorem c8_version_zero_counterexample :
    (0 : Int) < MINIMUM_SUPPORTED_API_VERSION
    ∧ validate_api_compatibility 0 = none := by
  decide

/-- C8 amended: the advisory message is emitted exactly for the supplied
nonzero API versions strictly below the minimum supported version 12 (so
versions at or above 12, and version 0, emit nothing), and the run
continues regardless: the evaluation outcome of `main` is the reduction
of the fetched service, independent of the API version. -/
theorem c8_version_advisory_amended :
    (∀ v : Int, (validate_api_compatibility v).isSome
      ↔ (v ≠ 0 ∧ v < MINIMUM_SUPPORTED_API_VERSION))
    ∧ ∀ (fetch : Nat → String → String → Service) (i : Nat) (a : Args),
        (mainBody fetch i a).2.2 = evalService (fetch i a.cluster a.service) := by
  constructor
  · intro v
    unfold validate_api_compatibility
    split <;> simp_all
  · intro fetch i a
    rfl

/-- C9: whenever the service's `healthSummary` is neither `"GOOD"` nor
`"DISABLED"` and the evaluation produces a result, if every individual
check has summary `"GOOD"` or `"DISABLED"` then the status string is the
base message followed by the dangling suffix `" - "` and nothing else. -/
theorem c9_dangling_suffix (n summary : String) (cks : List HealthCheck)
    (st : String) (c : Nat)
    (h1 : summary ≠ "GOOD") (h2 : summary ≠ "DISABLED")
    (h3 : evalService ⟨n, summary, cks⟩ = some (st, c))
    (h4 : ∀ chk ∈ cks, chk.summary = "GOOD" ∨ chk.summary = "DISABLED") :
    ∃ m, NAGIOS_CODE_MESSAGES c = some m ∧ st = fmtStatus m n summary ++ " - " := by
  have hr := renderedChecks_all_healthy cks h4
  by_cases hc : summary = "CONCERNING"
  · subst hc
    rw [eval_concerning] at h3
    simp only [Option.some.injEq, Prod.mk.injEq] at h3
    obtain ⟨hst, hcode⟩ := h3
    subst hcode
    exact ⟨"OK", rfl, by rw [← hst, hr, String.append_empty]⟩
  · cases hcm : CM_STATE_CODES summary with
    | none => simp [evalService, hc, hcm] at h3
    | some code =>
      obtain ⟨m, hm⟩ := nagios_of_cm summary code hcm
      rw [eval_shape_other n summary cks code m hc h1 h2 hcm hm] at h3
      simp only [Option.some.injEq, Prod.mk.injEq] at h3
      obtain ⟨hst, hcode⟩ := h3
      subst hcode
      exact ⟨m, hm, by rw [← hst, hr, String.append_empty]⟩

/-- C9 witness: a `BAD` service whose single check is healthy produces
the dangling status `"CRITICAL: svc is BAD - "`. -/
theorem c9_dangling_suffix_witness :
    ∃ m, NAGIOS_CODE_MESSAGES 2 = some m
      ∧ "CRITICAL: svc is BAD - " = fmtStatus m "svc" "BAD" ++ " - " :=
  c9_dangling_suffix "svc" "BAD" [⟨"chk", "GOOD"⟩] "CRITICAL: svc is BAD - " 2
    (by decide) (by decide) (by decide) (by decide)

/-- C10: for every `healthSummary` value outside the six-value
enumeration of the state-code table, the evaluation fails (the modelled
`KeyError` on `CM_STATE_CODES[summary]`) and no `(status, code)` pair is
produced. -/
theorem c10_unknown_summary_fails (n summary : String) (cks : List HealthCheck)
    (h : summary ∉ (["HISTORY_NOT_AVAILABLE", "NOT_AVAILABLE", "DISABLED",
      "GOOD", "CONCERNING", "BAD"] : List String)) :
    evalService ⟨n, summary, cks⟩ = none := by
  simp only [List.mem_cons, List.not_mem_nil, or_false, not_or] at h
  obtain ⟨h1, h2, h3, h4, h5, h6⟩ := h
  simp [evalService, CM_STATE_CODES, h1, h2, h3, h4, h5, h6]

/-- C10 witness: the out-of-enumeration summary `"WEIRD"` produces no
result. -/
theorem c10_unknown_summary_witness :
    evalService ⟨"svc", "WEIRD", []⟩ = none :=
  c10_unknown_summary_fails "svc" "WEIRD" [] (by decide)

end CheckCmService
